import Mathlib

/-!
Verification of the event-driven billing pipeline of an AI chat billing
application (FastAPI backend under `backend/app`).  The Python sources are
shallowly embedded: SQLAlchemy tables become lists of rows inside a `DB`
state record, the Redis cache becomes an association-list record, handlers
become pure state-transformers, and Python `float`/`Decimal` arithmetic is
idealised over `ℚ` with Python's `round(x, 6)` modelled as decimal
round-half-to-even at six fractional digits.
-/

set_option allowUnsafeReducibility true
attribute [semireducible] Rat.add Rat.mul Rat.sub Rat.div Rat.inv Rat.neg Rat.blt

namespace ChatBilling

/-- Round half to even at integer granularity, the tie-breaking rule of
Python's built-in `round`. -/
def roundHalfEven (x : ℚ) : ℤ :=
  let f : ℤ := Rat.floor x
  let r : ℚ := x - f
  if r < 1/2 then f
  else if 1/2 < r then f + 1
  else if f % 2 = 0 then f else f + 1

/-- Python's `round(x, 6)`: six fractional decimal digits. -/
def round6 (x : ℚ) : ℚ := (roundHalfEven (x * 1000000) : ℚ) / 1000000

/-- Decidable equality for `Except`, used to state results of the API
endpoints. -/
instance {ε α : Type} [DecidableEq ε] [DecidableEq α] :
    DecidableEq (Except ε α) := fun a b =>
  match a, b with
  | Except.error e, Except.error e' =>
      if h : e = e' then isTrue (by rw [h]) else isFalse (by simp [h])
  | Except.error _, Except.ok _ => isFalse (by simp)
  | Except.ok _, Except.error _ => isFalse (by simp)
  | Except.ok x, Except.ok y =>
      if h : x = y then isTrue (by rw [h]) else isFalse (by simp [h])

/-- `settings.DEFAULT_INPUT_TOKEN_PRICE` from `app/core/config.py`. -/
def DEFAULT_INPUT_TOKEN_PRICE : ℚ := 1/1000000

/-- `settings.DEFAULT_OUTPUT_TOKEN_PRICE` from `app/core/config.py`. -/
def DEFAULT_OUTPUT_TOKEN_PRICE : ℚ := 5/1000000

/-- Row of `dim_users` (`DimUser`). -/
structure UserRow where
  user_id : Nat
  username : String
deriving DecidableEq, Repr

/-- Row of `user_threads` (`UserThread`). -/
structure ThreadRow where
  thread_id : Nat
  user_id : Nat
  model_id : Nat
  created_at : Nat
deriving DecidableEq, Repr

/-- Row of `user_thread_messages` (`UserThreadMessage`). -/
structure MessageRow where
  message_id : Nat
  thread_id : Nat
  user_id : Nat
  content : String
  role : String
  created_at : Nat
  model_id : Nat
  token_count : Option Int
deriving DecidableEq, Repr

/-- Row of `message_tokens` (`MessageToken`). -/
structure TokenRow where
  token_id : Nat
  message_id : Nat
  token_type : String
  token_count : Int
deriving DecidableEq, Repr

/-- Row of `dim_token_pricing` (`DimTokenPricing`, SCD type 2). -/
structure PricingRow where
  pricing_id : Nat
  model_id : Nat
  input_token_price : ℚ
  output_token_price : ℚ
  effective_from : Nat
  effective_to : Option Nat
  is_current : Bool
deriving DecidableEq, Repr

/-- Row of `user_invoices` (`UserInvoice`). -/
structure InvoiceRow where
  invoice_id : Nat
  user_id : Nat
  thread_id : Nat
  total_amount : ℚ
  status : String
deriving DecidableEq, Repr

/-- Row of `user_invoice_line_item` (`UserInvoiceLineItem`). -/
structure LineItemRow where
  line_item_id : Nat
  message_id : Nat
  token_id : Nat
  pricing_id : Nat
  amount : ℚ
deriving DecidableEq, Repr

/-- The relational state: one list per table, plus autoincrement counters
for the surrogate keys handed out by `db.flush()`. -/
structure DB where
  users : List UserRow
  threads : List ThreadRow
  messages : List MessageRow
  message_tokens : List TokenRow
  token_pricing : List PricingRow
  invoices : List InvoiceRow
  line_items : List LineItemRow
  next_token_id : Nat
  next_line_item_id : Nat
  next_invoice_id : Nat
deriving DecidableEq, Repr

/-- `db.query(UserThreadMessage).filter(message_id == mid).first()`. -/
def findMessage (db : DB) (mid : Nat) : Option MessageRow :=
  (db.messages.filter (fun m => m.message_id == mid)).head?

/-- `db.query(UserThread).filter(thread_id == tid).first()`. -/
def findThread (db : DB) (tid : Nat) : Option ThreadRow :=
  (db.threads.filter (fun t => t.thread_id == tid)).head?

/-- `db.query(DimTokenPricing).filter(model_id == m, is_current == True).first()`. -/
def currentPricingFor (db : DB) (model_id : Nat) : Option PricingRow :=
  (db.token_pricing.filter (fun p => p.model_id == model_id && p.is_current)).head?

/-- `db.query(DimTokenPricing).filter(is_current == True)
      .order_by(desc(effective_from)).first()`: the first listed row among
the current rows with maximal `effective_from` (stable descending sort). -/
def latestCurrentPricing (db : DB) : Option PricingRow :=
  (db.token_pricing.filter (fun p => p.is_current)).foldl
    (fun acc p =>
      match acc with
      | none => some p
      | some q => if q.effective_from < p.effective_from then some p else some q)
    none

/-- Messages of a thread, in table order. -/
def threadMessages (db : DB) (tid : Nat) : List MessageRow :=
  db.messages.filter (fun m => m.thread_id == tid)

/-- `func.count(UserThreadMessage.message_id)` for one thread. -/
def messageCount (db : DB) (tid : Nat) : Nat :=
  (threadMessages db tid).length

/-- The `MessageToken ⋈ UserThreadMessage` sum of `token_count` for one
thread and one token type (the per-type bucket of the `group_by` query;
an empty bucket reads back as the initial 0). -/
def tokenSumByType (db : DB) (tid : Nat) (t : String) : Int :=
  ((db.message_tokens.filter (fun r =>
      (match findMessage db r.message_id with
       | some m => m.thread_id == tid
       | none => false) && r.token_type == t)).map (fun r => r.token_count)).sum

/-- Fallback sum of the denormalized `UserThreadMessage.token_count` over
one thread and one role (`.scalar() or 0`). -/
def roleTokenCountSum (db : DB) (tid : Nat) (role : String) : Int :=
  (((threadMessages db tid).filter
      (fun m => m.role == role && m.token_count.isSome)).map
    (fun m => m.token_count.getD 0)).sum

/-- `func.max(UserThreadMessage.created_at)` for one thread
(`None` when the thread has no messages). -/
def lastActivity (db : DB) (tid : Nat) : Option Nat :=
  let xs := (threadMessages db tid).map (fun m => m.created_at)
  if xs.isEmpty then none else some (xs.foldl Nat.max 0)

/-- The metrics payload assembled by the billing endpoints
(schema `BillingMetrics`). -/
structure BillingMetrics where
  thread_id : Nat
  total_messages : Nat
  total_input_tokens : Int
  total_output_tokens : Int
  total_cost : ℚ
  last_activity : Nat
deriving DecidableEq, Repr

/-- The Redis read model: `billing:thread_metrics:<id>` and
`billing:user_metrics:<id>` entries (TTLs are not modelled; an absent key
covers both never-written and expired). -/
structure Cache where
  thread_metrics : List (Nat × BillingMetrics)
  user_metrics : List (Nat × List BillingMetrics)
deriving DecidableEq, Repr

def Cache.empty : Cache := { thread_metrics := [], user_metrics := [] }

def Cache.getThread (c : Cache) (tid : Nat) : Option BillingMetrics :=
  ((c.thread_metrics.filter (fun kv => kv.1 == tid)).head?).map (fun kv => kv.2)

def Cache.putThread (c : Cache) (tid : Nat) (m : BillingMetrics) : Cache :=
  { c with thread_metrics :=
      (c.thread_metrics.filter (fun kv => !(kv.1 == tid))) ++ [(tid, m)] }

def Cache.delThread (c : Cache) (tid : Nat) : Cache :=
  { c with thread_metrics := c.thread_metrics.filter (fun kv => !(kv.1 == tid)) }

def Cache.getUser (c : Cache) (uid : Nat) : Option (List BillingMetrics) :=
  ((c.user_metrics.filter (fun kv => kv.1 == uid)).head?).map (fun kv => kv.2)

def Cache.putUser (c : Cache) (uid : Nat) (ms : List BillingMetrics) : Cache :=
  { c with user_metrics :=
      (c.user_metrics.filter (fun kv => !(kv.1 == uid))) ++ [(uid, ms)] }

def Cache.delUser (c : Cache) (uid : Nat) : Cache :=
  { c with user_metrics := c.user_metrics.filter (fun kv => !(kv.1 == uid)) }

/-- `token_usage` field of a `TokenMetrics` event. -/
structure TokenUsage where
  input_tokens : Int
  output_tokens : Int
deriving DecidableEq, Repr

/-- A `TokenMetrics` Kafka event (`message_id`, `model_id`, `token_usage`);
id 0 models a missing/falsy id. -/
structure TokenMetricsEvent where
  message_id : Nat
  model_id : Nat
  token_usage : TokenUsage
deriving DecidableEq, Repr

/-- Outcome of `handle_token_metrics` as distinguished by its logging:
early return on missing ids, early return on message `NotFound`, or a
committed transaction. -/
inductive TMResult where
  | missingData
  | notFound
  | ok
deriving DecidableEq, Repr

/-- Pointwise form of the denormalized `token_count` update: touch the
row with the given `message_id`, leave every other row unchanged. -/
def updTokenCount (mid : Nat) (v : Int) (m : MessageRow) : MessageRow :=
  if m.message_id == mid then { m with token_count := some v } else m

/-- `message.token_count = value` followed by `db.flush()`. -/
def setMessageTokenCount (msgs : List MessageRow) (mid : Nat) (v : Int) :
    List MessageRow :=
  msgs.map (updTokenCount mid v)

/-- `db.query(MessageToken).filter(message_id == mid, token_type == t).delete()`. -/
def deleteTokenRecords (toks : List TokenRow) (mid : Nat) (t : String) :
    List TokenRow :=
  toks.filter (fun r => !(r.message_id == mid && r.token_type == t))

/-- One `if input_tokens > 0: ...` / `if output_tokens > 0: ...` block of
`handle_token_metrics`: delete-then-insert the token record of this type,
then insert an invoice line item only when a pricing row was found. -/
def processTokenType (db : DB) (mid : Nat) (t : String) (cnt : Int) (price : ℚ)
    (pricing : Option PricingRow) : DB :=
  if 0 < cnt then
    let db1 := { db with
      message_tokens := deleteTokenRecords db.message_tokens mid t ++
        [{ token_id := db.next_token_id, message_id := mid,
           token_type := t, token_count := cnt }],
      next_token_id := db.next_token_id + 1 }
    match pricing with
    | some pr =>
        { db1 with
          line_items := db1.line_items ++
            [{ line_item_id := db1.next_line_item_id, message_id := mid,
               token_id := db.next_token_id, pricing_id := pr.pricing_id,
               amount := round6 ((cnt : ℚ) * price) }],
          next_line_item_id := db1.next_line_item_id + 1 }
    | none => db1
  else db

/-- The transactional part of `handle_token_metrics`
(`message_processor.py`, up to `db.commit()`): message lookup, pricing
lookup with default fallback, denormalized `token_count` update, and the
two per-type delete/insert blocks.  Also returns the fetched message row
for the post-commit cache maintenance. -/
def handle_token_metrics_tx (db : DB) (ev : TokenMetricsEvent) :
    DB × Option MessageRow × TMResult :=
  if ev.message_id == 0 || ev.model_id == 0 then (db, none, TMResult.missingData)
  else
    match findMessage db ev.message_id with
    | none => (db, none, TMResult.notFound)
    | some message =>
      let pricing := currentPricingFor db ev.model_id
      let input_price :=
        match pricing with
        | some p => p.input_token_price
        | none => DEFAULT_INPUT_TOKEN_PRICE
      let output_price :=
        match pricing with
        | some p => p.output_token_price
        | none => DEFAULT_OUTPUT_TOKEN_PRICE
      let input_tokens := ev.token_usage.input_tokens
      let output_tokens := ev.token_usage.output_tokens
      let newCount := if message.role == "user" then input_tokens else output_tokens
      let db1 := { db with messages := setMessageTokenCount db.messages ev.message_id newCount }
      let db2 := processTokenType db1 ev.message_id "input" input_tokens input_price pricing
      let db3 := processTokenType db2 ev.message_id "output" output_tokens output_price pricing
      (db3, some message, TMResult.ok)

/-- `update_thread_metrics_cache` (`message_processor.py`): recompute the
thread metrics from the ledger — token sums by type with the
`UserThreadMessage.token_count` fallback when both are zero, the single
latest current pricing across all models, `round(…, 6)` — and cache them.
Returns `none` (exception caught, cache untouched) when the thread row is
absent and there is no message to supply `last_activity`. -/
def update_thread_metrics_cache (db : DB) (cache : Cache) (tid : Nat) :
    Option BillingMetrics × Cache :=
  let message_count := messageCount db tid
  let it0 := tokenSumByType db tid "input"
  let ot0 := tokenSumByType db tid "output"
  let input_tokens := if it0 == 0 && ot0 == 0 then roleTokenCountSum db tid "user" else it0
  let output_tokens := if it0 == 0 && ot0 == 0 then roleTokenCountSum db tid "assistant" else ot0
  let pricing := latestCurrentPricing db
  let input_price :=
    match pricing with
    | some p => p.input_token_price
    | none => DEFAULT_INPUT_TOKEN_PRICE
  let output_price :=
    match pricing with
    | some p => p.output_token_price
    | none => DEFAULT_OUTPUT_TOKEN_PRICE
  let total_cost := round6 ((input_tokens : ℚ) * input_price + (output_tokens : ℚ) * output_price)
  let la :=
    match lastActivity db tid with
    | some x => some x
    | none => (findThread db tid).map (fun t => t.created_at)
  match la with
  | none => (none, cache)
  | some last =>
      let m : BillingMetrics :=
        { thread_id := tid, total_messages := message_count,
          total_input_tokens := input_tokens, total_output_tokens := output_tokens,
          total_cost := total_cost, last_activity := last }
      (some m, cache.putThread tid m)

/-- `handle_token_metrics` (`message_processor.py`): the committed
transaction followed by the post-commit cache maintenance — invalidate the
thread's and user's metrics entries, then eagerly recompute and re-cache
the thread entry. -/
def handle_token_metrics (db : DB) (cache : Cache) (ev : TokenMetricsEvent) :
    DB × Cache × TMResult :=
  let r := handle_token_metrics_tx db ev
  let cache1 :=
    match r.2.1, r.2.2 with
    | some message, TMResult.ok =>
        (update_thread_metrics_cache r.1
          ((cache.delThread message.thread_id).delUser message.user_id)
          message.thread_id).2
    | _, _ => cache
  (r.1, cache1, r.2.2)

/-- Errors surfaced by the billing API endpoints: a 404 `HTTPException`,
or an uncaught Python `AttributeError` (answered as a 500 by FastAPI). -/
inductive ApiError where
  | notFound
  | attributeError
deriving DecidableEq, Repr

/-- `get_thread_billing_metrics` (`billing.py`, GET `/metrics/thread/{id}`).
The session argument is an `Option` because `generate_invoice_for_thread`
invokes this function directly with its arguments shifted, leaving the
session parameter at its `Depends(get_db)` default — a marker object whose
first attribute access (`db.query`) raises `AttributeError`, modelled as
the `none` case.  When `refresh` is set the code calls
`redis_service.force_refresh_thread_metrics`, a method `RedisService` does
not define, so that branch also raises `AttributeError`.  The cache-miss
recompute aggregates `MessageToken` rows by type (with no fallback to the
denormalized `UserThreadMessage.token_count`), prices with the single
latest current pricing row, and rounds the cost to six decimals. -/
def get_thread_billing_metrics (session : Option DB) (cache : Cache)
    (thread_id : Nat) (refresh : Bool) :
    Except ApiError (BillingMetrics × Cache) :=
  match session with
  | none => Except.error ApiError.attributeError
  | some db =>
    match findThread db thread_id with
    | none => Except.error ApiError.notFound
    | some thread =>
      if refresh then Except.error ApiError.attributeError
      else
        match cache.getThread thread_id with
        | some m => Except.ok (m, cache)
        | none =>
          let message_count := messageCount db thread_id
          let input_tokens := tokenSumByType db thread_id "input"
          let output_tokens := tokenSumByType db thread_id "output"
          let pricing := latestCurrentPricing db
          let input_price :=
            match pricing with
            | some p => p.input_token_price
            | none => DEFAULT_INPUT_TOKEN_PRICE
          let output_price :=
            match pricing with
            | some p => p.output_token_price
            | none => DEFAULT_OUTPUT_TOKEN_PRICE
          let total_cost :=
            round6 ((input_tokens : ℚ) * input_price + (output_tokens : ℚ) * output_price)
          let la := (lastActivity db thread_id).getD thread.created_at
          let m : BillingMetrics :=
            { thread_id := thread_id, total_messages := message_count,
              total_input_tokens := input_tokens, total_output_tokens := output_tokens,
              total_cost := total_cost, last_activity := la }
          Except.ok (m, cache.putThread thread_id m)

/-- `get_user_billing_metrics` (`billing.py`, GET `/metrics/user/{id}`),
translated with the source's indentation taken literally: the per-thread
loop body computes message and token counts for each thread id in turn,
but only the last iteration's local variables survive it, because the
zero-token fallback block is dedented out of the loop and the block that
builds and appends the single result entry sits inside that fallback
branch.  The appended cost uses the fallback token counts and is not
rounded (`total_cost = input*price + output*price` with no `round`). -/
def get_user_billing_metrics (db : DB) (cache : Cache) (user_id : Nat) :
    Except ApiError (List BillingMetrics × Cache) :=
  match (db.users.filter (fun u => u.user_id == user_id)).head? with
  | none => Except.error ApiError.notFound
  | some _ =>
    match cache.getUser user_id with
    | some ms => Except.ok (ms, cache)
    | none =>
      let thread_ids := (db.threads.filter (fun t => t.user_id == user_id)).map
        (fun t => t.thread_id)
      match thread_ids.getLast? with
      | none => Except.ok ([], cache)
      | some tid =>
        let message_count := messageCount db tid
        let input_tokens := tokenSumByType db tid "input"
        let output_tokens := tokenSumByType db tid "output"
        let result : List BillingMetrics :=
          if input_tokens == 0 && output_tokens == 0 then
            let it := roleTokenCountSum db tid "user"
            let ot := roleTokenCountSum db tid "assistant"
            let pricing := latestCurrentPricing db
            let input_price :=
              match pricing with
              | some p => p.input_token_price
              | none => DEFAULT_INPUT_TOKEN_PRICE
            let output_price :=
              match pricing with
              | some p => p.output_token_price
              | none => DEFAULT_OUTPUT_TOKEN_PRICE
            let total_cost := (it : ℚ) * input_price + (ot : ℚ) * output_price
            let la :=
              match lastActivity db tid with
              | some x => x
              | none =>
                match findThread db tid with
                | some t => t.created_at
                | none => 0
            [{ thread_id := tid, total_messages := message_count,
               total_input_tokens := it, total_output_tokens := ot,
               total_cost := total_cost, last_activity := la }]
          else []
        let cache1 := if result.isEmpty then cache else cache.putUser user_id result
        Except.ok (result, cache1)

/-- Per-token-record amount of the reconciliation pass: the unrounded
`token_count * unit_price`, picking the input or output price by the
record's `token_type`. -/
def amountFor (pr : PricingRow) (tok : TokenRow) : ℚ :=
  if tok.token_type == "input" then (tok.token_count : ℚ) * pr.input_token_price
  else (tok.token_count : ℚ) * pr.output_token_price

/-- Inner loop body of the reconciliation pass: append one line item for
one token record of one message. -/
def reconAddItem (msg : MessageRow) (pr : PricingRow) (a : DB) (tok : TokenRow) : DB :=
  { a with
    line_items := a.line_items ++
      [{ line_item_id := a.next_line_item_id, message_id := msg.message_id,
         token_id := tok.token_id, pricing_id := pr.pricing_id,
         amount := amountFor pr tok }],
    next_line_item_id := a.next_line_item_id + 1 }

/-- Outer loop body of the reconciliation pass: fetch the message's token
records and the current pricing for the message's own model (`continue`
when none exists), then append one line item per token record. -/
def reconMessage (db : DB) (acc : DB) (msg : MessageRow) : DB :=
  let toks := db.message_tokens.filter (fun r => r.message_id == msg.message_id)
  match currentPricingFor db msg.model_id with
  | none => acc
  | some pr => toks.foldl (reconAddItem msg pr) acc

/-- `generate_invoice_line_items` (`billing.py`): the reconciliation pass
run in the background after invoice creation.  For every message of the
thread, replay its token records against the current pricing of the
message's own model and append the resulting line items. -/
def generate_invoice_line_items (db : DB) (invoice_id : Nat) (thread_id : Nat) : DB :=
  let _ := invoice_id
  (threadMessages db thread_id).foldl (reconMessage db) db

/-- `generate_invoice_for_thread` (`billing.py`, POST
`/generate-invoice/thread/{id}`).  If an invoice already exists for the
thread it is returned unchanged.  Otherwise the code runs
`get_thread_billing_metrics(thread_id, db)`, which passes the session
positionally into the `refresh` parameter (a non-empty object, hence
truthy) and leaves the session parameter at its `Depends(get_db)` default;
only if that call returned would a pending invoice be created and the line
items scheduled in the background. -/
def generate_invoice_for_thread (db : DB) (cache : Cache) (thread_id : Nat) :
    Except ApiError (InvoiceRow × DB × Cache) :=
  match findThread db thread_id with
  | none => Except.error ApiError.notFound
  | some thread =>
    match (db.invoices.filter (fun i => i.thread_id == thread_id)).head? with
    | some inv => Except.ok (inv, db, cache)
    | none =>
      match get_thread_billing_metrics none cache thread_id true with
      | Except.error e => Except.error e
      | Except.ok (m, cache1) =>
        let inv : InvoiceRow :=
          { invoice_id := db.next_invoice_id, user_id := thread.user_id,
            thread_id := thread_id, total_amount := m.total_cost, status := "pending" }
        let db1 := { db with invoices := db.invoices ++ [inv],
                             next_invoice_id := db.next_invoice_id + 1 }
        let db2 := generate_invoice_line_items db1 inv.invoice_id thread_id
        Except.ok (inv, db2, cache1)

/-- Modelled from the spec: no function under `src/` writes to
`dim_token_pricing` apart from the one-shot seed, and §4.1's
`set_current_price(model_id, input_price, output_price)` has no
implementation in the repository (only the `DimTokenPricing` declaration
exists).  Following the spec's words: close the existing current row for
the model (`effective_to = now`, `is_current = false`) and insert a new
current row, as one atomic transaction (`closeRow` is the per-row close
step of that transaction). -/
def closeRow (model_id : Nat) (now : Nat) (r : PricingRow) : PricingRow :=
  if r.model_id == model_id && r.is_current then
    { r with is_current := false, effective_to := some now }
  else r

/-- Modelled from the spec: the `set_current_price(model_id, input_price,
output_price)` transaction of §4.1 — close the model's current row and
insert a fresh current row in one step. -/
def set_current_price (db : DB) (model_id : Nat) (input_price output_price : ℚ)
    (now : Nat) : DB :=
  { db with
    token_pricing :=
      db.token_pricing.map (closeRow model_id now) ++
      [{ pricing_id := (db.token_pricing.map (fun r => r.pricing_id)).foldl Nat.max 0 + 1,
         model_id := model_id, input_token_price := input_price,
         output_token_price := output_price, effective_from := now,
         effective_to := none, is_current := true }] }

/-- Number of current pricing rows for one model. -/
def countCurrent (db : DB) (model_id : Nat) : Nat :=
  (db.token_pricing.filter (fun r => r.model_id == model_id && r.is_current)).length

/-- Number of pricing rows for one model that are closed with
`effective_to` equal to the given instant. -/
def closedAtCount (db : DB) (model_id : Nat) (now : Nat) : Nat :=
  (db.token_pricing.filter
      (fun r => r.model_id == model_id && !r.is_current && r.effective_to == some now)).length

/-- Modelled from the spec: pricing states reachable from an empty pricing
table by `set_current_price` transactions (the spec's only write path to
the pricing dimension; the seed script's pricing insert rolls back on a
`KeyError` before committing, so the table starts empty). -/
inductive PricingReachable : DB → Prop where
  | init (db : DB) : db.token_pricing = [] → PricingReachable db
  | step (db : DB) (model_id : Nat) (input_price output_price : ℚ) (now : Nat) :
      PricingReachable db →
      PricingReachable (set_current_price db model_id input_price output_price now)

/-- The `token_count` values of the `MessageToken` rows of one message and
one token type, in table order (the observable ledger content the
idempotence properties quantify over; `token_id` surrogates excluded). -/
def tokenCounts (db : DB) (mid : Nat) (t : String) : List Int :=
  (db.message_tokens.filter
      (fun r => r.message_id == mid && r.token_type == t)).map
    (fun r => r.token_count)

/-- Sum of all `UserInvoiceLineItem.amount` values in the ledger. -/
def amountsTotal (db : DB) : ℚ :=
  (db.line_items.map (fun li => li.amount)).sum

/-- Fixture: the seeded `claude-3-5-haiku` pricing row —
$0.25 / $0.75 per million tokens. -/
def prHaiku : PricingRow :=
  { pricing_id := 1, model_id := 1, input_token_price := 25/100000000,
    output_token_price := 75/100000000, effective_from := 50,
    effective_to := none, is_current := true }

/-- Fixture: the seeded test user. -/
def user1 : UserRow := { user_id := 1, username := "testuser" }

/-- Fixture: one chat thread of `user1`. -/
def thread1 : ThreadRow :=
  { thread_id := 1, user_id := 1, model_id := 1, created_at := 90 }

/-- Fixture: the user message of the spec's §8 scenario. -/
def msgHello : MessageRow :=
  { message_id := 1, thread_id := 1, user_id := 1, content := "Hello",
    role := "user", created_at := 100, model_id := 1, token_count := none }

/-- Fixture: the assistant reply of the spec's §8 scenario. -/
def msgReply : MessageRow :=
  { message_id := 2, thread_id := 1, user_id := 1, content := "Hi there",
    role := "assistant", created_at := 101, model_id := 1, token_count := none }

/-- Fixture: one user, one thread, the two scenario messages, the haiku
pricing row, and no token or billing rows yet. -/
def sampleDB : DB :=
  { users := [user1], threads := [thread1], messages := [msgHello, msgReply],
    message_tokens := [], token_pricing := [prHaiku], invoices := [],
    line_items := [], next_token_id := 1, next_line_item_id := 1,
    next_invoice_id := 1 }

/-- Fixture: `TokenMetrics` event for the user message (5 input tokens). -/
def evInput5 : TokenMetricsEvent :=
  { message_id := 1, model_id := 1,
    token_usage := { input_tokens := 5, output_tokens := 0 } }

/-- Fixture: `TokenMetrics` event for the assistant reply (12 output
tokens). -/
def evOutput12 : TokenMetricsEvent :=
  { message_id := 2, model_id := 1,
    token_usage := { input_tokens := 0, output_tokens := 12 } }

/-- Fixture: `sampleDB` with its pricing row removed (no current
`TokenPrice` for any model). -/
def noPricingDB : DB := { sampleDB with token_pricing := [] }

/-- Fixture: the §8 scenario ledger — both messages carry their
denormalized counts and their `MessageToken` rows (5 input / 12 output). -/
def scenarioDB : DB :=
  { sampleDB with
    messages := [{ msgHello with token_count := some 5 },
                 { msgReply with token_count := some 12 }],
    message_tokens :=
      [{ token_id := 1, message_id := 1, token_type := "input", token_count := 5 },
       { token_id := 2, message_id := 2, token_type := "output", token_count := 12 }],
    next_token_id := 3 }

/-- Fixture: only the denormalized `UserThreadMessage.token_count` fields
are populated; no `MessageToken` rows exist (the state the zero-token
fallback is for). -/
def denormOnlyDB : DB :=
  { sampleDB with
    messages := [{ msgHello with token_count := some 5 },
                 { msgReply with token_count := some 12 }] }

/-- Fixture: a pricing row whose unit prices are exact at six decimal
digits ($1 / $5 per million tokens), so per-item rounding is lossless. -/
def prExact : PricingRow :=
  { pricing_id := 1, model_id := 1, input_token_price := 1/1000000,
    output_token_price := 5/1000000, effective_from := 50,
    effective_to := none, is_current := true }

/-- Fixture: a one-message thread priced by `prExact`. -/
def oneMsgDB : DB :=
  { sampleDB with messages := [msgHello], token_pricing := [prExact] }

/-- Fixture: the ledger after the billing processor handled `evInput5` on
`sampleDB` (one token record, one incremental line item). -/
def incrementalDB : DB := (handle_token_metrics sampleDB Cache.empty evInput5).1

/-- Fixture: `incrementalDB` after the invoice generator's reconciliation
pass replayed thread 1. -/
def reconDB : DB := generate_invoice_line_items incrementalDB 1 1

/-- Fixture: the empty database (the state the backend starts from, since
the seed script's inserts roll back on its `KeyError`). -/
def emptyDB : DB :=
  { users := [], threads := [], messages := [], message_tokens := [],
    token_pricing := [], invoices := [], line_items := [],
    next_token_id := 1, next_line_item_id := 1, next_invoice_id := 1 }

/-- Fixture: a `TokenMetrics` event whose `message_id` references no
existing message. -/
def evGhost : TokenMetricsEvent :=
  { message_id := 99, model_id := 1,
    token_usage := { input_tokens := 7, output_tokens := 3 } }

/-- Number of invoice line items one committed `handle_token_metrics` run
adds: one per positive token count, and only when a current pricing row
exists for the event's model. -/
def itemsAdded (db : DB) (ev : TokenMetricsEvent) : Nat :=
  match currentPricingFor db ev.model_id with
  | some _ =>
      (if 0 < ev.token_usage.input_tokens then 1 else 0) +
      (if 0 < ev.token_usage.output_tokens then 1 else 0)
  | none => 0

/-- The line-item amounts one committed `handle_token_metrics` run
appends: `round(count * unit_price, 6)` per positive token count when a
current pricing row exists for the event's model, nothing otherwise. -/
def addedAmounts (db : DB) (ev : TokenMetricsEvent) : List ℚ :=
  match currentPricingFor db ev.model_id with
  | some p =>
      (if 0 < ev.token_usage.input_tokens then
        [round6 ((ev.token_usage.input_tokens : ℚ) * p.input_token_price)] else []) ++
      (if 0 < ev.token_usage.output_tokens then
        [round6 ((ev.token_usage.output_tokens : ℚ) * p.output_token_price)] else [])
  | none => []

/-- Claim C1 counterexample: processing the same `TokenMetrics` event a
second time (`incrementalDB` is `sampleDB` after one processing of
`evInput5`) leaves two `UserInvoiceLineItem` rows for the message where
one processing left one — the handler deletes prior token records but
never deletes prior line items, so line items are duplicated. -/
theorem c1_counterexample :
    (handle_token_metrics incrementalDB Cache.empty evInput5).1.line_items.length = 2 ∧
    incrementalDB.line_items.length = 1 ∧
    (handle_token_metrics incrementalDB Cache.empty evInput5).1.line_items ≠
      incrementalDB.line_items := by
  decide

/-- Claim C2 counterexample: on a ledger with no current `TokenPrice` row
(`noPricingDB`), `handle_token_metrics` commits the fresh
`MessageToken` record but creates no `InvoiceLineItem` at all — the
default prices are never used for billing, contradicting the claim that a
line item priced at the default is always written. -/
theorem c2_counterexample :
    (handle_token_metrics noPricingDB Cache.empty evInput5).1.line_items = [] ∧
    tokenCounts (handle_token_metrics noPricingDB Cache.empty evInput5).1 1 "input" = [5] ∧
    (handle_token_metrics noPricingDB Cache.empty evInput5).2.2 = TMResult.ok := by
  decide

/-- Claim C3: on an existing thread with no invoice yet,
`generate_invoice_for_thread` raises `AttributeError` (it passes the
session positionally into the `refresh` parameter of
`get_thread_billing_metrics`, leaving the session at its
`Depends(get_db)` default) and creates no invoice, instead of creating the
pending invoice the claim describes. -/
theorem c3_generate_invoice_crashes :
    generate_invoice_for_thread sampleDB Cache.empty 1 =
      Except.error ApiError.attributeError ∧
    sampleDB.invoices = [] ∧
    (findThread sampleDB 1).isSome = true := by
  decide

/-- Claim C4: for an existing user with exactly one thread whose
`MessageToken` rows are populated, the cache-miss path of
`get_user_billing_metrics` returns the empty list (and caches nothing)
instead of one `ThreadMetrics` entry per thread — the block that appends
the result entry is indented outside the per-thread loop, under the
zero-token fallback branch. -/
theorem c4_user_metrics_returns_empty :
    get_user_billing_metrics scenarioDB Cache.empty 1 =
      Except.ok ([], Cache.empty) ∧
    (scenarioDB.threads.filter (fun t => t.user_id == 1)).length = 1 ∧
    tokenSumByType scenarioDB 1 "input" = 5 := by
  decide

/-- Claim C5: `GetThreadMetrics` with `refresh = true` on an existing
thread raises `AttributeError` instead of invalidating and recomputing:
the endpoint calls `redis_service.force_refresh_thread_metrics`, a method
`RedisService` never defines. -/
theorem c5_refresh_raises :
    get_thread_billing_metrics (some sampleDB) Cache.empty 1 true =
      Except.error ApiError.attributeError ∧
    (findThread sampleDB 1).isSome = true := by
  decide

/-- Claim C6 counterexample: for thread 1 of `incrementalDB` (5 input
tokens at $0.00000025), the Billing Processor's incremental line items
total `round(5 * 0.00000025, 6) = 0.000001`, while the reconciliation pass
adds unrounded line items totalling `0.00000125` — the two totals differ
because only the incremental path rounds each amount to six decimals. -/
theorem c6_counterexample :
    amountsTotal incrementalDB = 1/1000000 ∧
    amountsTotal reconDB - amountsTotal incrementalDB = 125/100000000 ∧
    (1/1000000 : ℚ) ≠ 125/100000000 := by
  decide

/-- Claim C8 counterexample: on a ledger whose `MessageToken` table is
empty but whose messages carry denormalized `token_count` values
(`denormOnlyDB`), the cache-miss recompute of the metrics endpoint
returns zero input and output tokens — it never falls back to
`UserThreadMessage.token_count`, although the role-grouped sums are 5 and
12. -/
theorem c8_counterexample :
    (get_thread_billing_metrics (some denormOnlyDB) Cache.empty 1 false).toOption.map
        (fun x => (x.1.total_input_tokens, x.1.total_output_tokens)) =
      some (0, 0) ∧
    roleTokenCountSum denormOnlyDB 1 "user" = 5 ∧
    roleTokenCountSum denormOnlyDB 1 "assistant" = 12 := by
  decide

/-- Claim C10 counterexample: in the §8 scenario (5 input tokens at
$0.00000025, 12 output tokens at $0.00000075), `GetThreadMetrics` returns
`total_cost = round(0.00001025, 6) = 0.00001`, not the `0.00001025` the
claim states — rounding to six fractional digits discards the trailing
`25`. -/
theorem c10_counterexample :
    (get_thread_billing_metrics (some scenarioDB) Cache.empty 1 false).toOption.map
        (fun x => x.1.total_cost) = some (1/100000) ∧
    (1/100000 : ℚ) ≠ 1025/100000000 := by
  decide

/-- Claim C10 (amended): in the §8 scenario the endpoint returns the full
metrics row with `total_cost = 0.00001` — the value the code's
`round(5*0.00000025 + 12*0.00000075, 6)` actually produces. -/
theorem c10_scenario_metrics :
    (get_thread_billing_metrics (some scenarioDB) Cache.empty 1 false).toOption.map
        (fun x => x.1) =
      some { thread_id := 1, total_messages := 2, total_input_tokens := 5,
             total_output_tokens := 12, total_cost := 1/100000,
             last_activity := 101 } := by
  decide

/-- The rows committed by `handle_token_metrics` are exactly those of its
transactional part (the trailing cache maintenance touches only Redis). -/
theorem handle_token_metrics_fst (db : DB) (cache : Cache) (ev : TokenMetricsEvent) :
    (handle_token_metrics db cache ev).1 = (handle_token_metrics_tx db ev).1 := rfl

theorem processTokenType_messages (db : DB) (mid : Nat) (t : String) (cnt : Int)
    (price : ℚ) (pr : Option PricingRow) :
    (processTokenType db mid t cnt price pr).messages = db.messages := by
  by_cases h : 0 < cnt
  · cases pr <;> simp [processTokenType, h]
  · simp [processTokenType, h]

theorem processTokenType_token_pricing (db : DB) (mid : Nat) (t : String) (cnt : Int)
    (price : ℚ) (pr : Option PricingRow) :
    (processTokenType db mid t cnt price pr).token_pricing = db.token_pricing := by
  by_cases h : 0 < cnt
  · cases pr <;> simp [processTokenType, h]
  · simp [processTokenType, h]

theorem processTokenType_message_tokens (db : DB) (mid : Nat) (t : String) (cnt : Int)
    (price : ℚ) (pr : Option PricingRow) :
    (processTokenType db mid t cnt price pr).message_tokens =
      if 0 < cnt then
        deleteTokenRecords db.message_tokens mid t ++
          [{ token_id := db.next_token_id, message_id := mid,
             token_type := t, token_count := cnt }]
      else db.message_tokens := by
  by_cases h : 0 < cnt
  · cases pr <;> simp [processTokenType, h]
  · simp [processTokenType, h]

theorem processTokenType_line_items (db : DB) (mid : Nat) (t : String) (cnt : Int)
    (price : ℚ) (pr : Option PricingRow) :
    (processTokenType db mid t cnt price pr).line_items =
      db.line_items ++
        (if 0 < cnt then
          (match pr with
           | some p =>
               [{ line_item_id := db.next_line_item_id, message_id := mid,
                  token_id := db.next_token_id, pricing_id := p.pricing_id,
                  amount := round6 ((cnt : ℚ) * price) }]
           | none => [])
        else []) := by
  by_cases h : 0 < cnt
  · cases pr <;> simp [processTokenType, h]
  · simp [processTokenType, h]

/-- Deleting the `(mid, t)` rows and filtering for `(mid', t')` commute:
the deletion is invisible unless `(mid', t') = (mid, t)`, in which case
nothing survives. -/
theorem filter_deleteTokenRecords (l : List TokenRow) (mid : Nat) (t : String)
    (mid' : Nat) (t' : String) :
    (deleteTokenRecords l mid t).filter
        (fun r => r.message_id == mid' && r.token_type == t') =
      if mid' = mid ∧ t' = t then []
      else l.filter (fun r => r.message_id == mid' && r.token_type == t') := by
  unfold deleteTokenRecords
  rw [List.filter_filter]
  by_cases hsame : mid' = mid ∧ t' = t
  · obtain ⟨h1, h2⟩ := hsame
    subst h1; subst h2
    simp [Bool.and_not_self]
  · rw [if_neg hsame]
    apply List.filter_congr
    intro a _
    by_cases h1 : (a.message_id == mid' && a.token_type == t') = true
    · have hq : (a.message_id == mid && a.token_type == t) = false := by
        obtain ⟨e1, e2⟩ := (Bool.and_eq_true _ _).mp h1
        rcases hq0 : (a.message_id == mid && a.token_type == t) with _ | _
        · rfl
        · obtain ⟨f1, f2⟩ := (Bool.and_eq_true _ _).mp hq0
          exact absurd ⟨(beq_iff_eq.mp e1).symm.trans (beq_iff_eq.mp f1),
            (beq_iff_eq.mp e2).symm.trans (beq_iff_eq.mp f2)⟩ hsame
      rw [h1, hq]
      rfl
    · rw [Bool.eq_false_iff.mpr h1]
      rfl

/-- Effect of one `processTokenType` block on the `(mid', t')` token
view: a positive count replaces the `(mid, t)` bucket with a singleton
and leaves every other bucket alone. -/
theorem tokenCounts_processTokenType (db : DB) (mid : Nat) (t : String) (cnt : Int)
    (price : ℚ) (pr : Option PricingRow) (mid' : Nat) (t' : String) :
    tokenCounts (processTokenType db mid t cnt price pr) mid' t' =
      if 0 < cnt then
        (if mid' = mid ∧ t' = t then [cnt] else tokenCounts db mid' t')
      else tokenCounts db mid' t' := by
  unfold tokenCounts
  rw [processTokenType_message_tokens]
  by_cases h : 0 < cnt
  · rw [if_pos h, if_pos h, List.filter_append, filter_deleteTokenRecords]
    by_cases hsame : mid' = mid ∧ t' = t
    · obtain ⟨h1, h2⟩ := hsame
      subst h1; subst h2
      simp
    · have hnot : (mid == mid' && t == t') = false := by
        rcases hq0 : (mid == mid' && t == t') with _ | _
        · rfl
        · obtain ⟨f1, f2⟩ := (Bool.and_eq_true _ _).mp hq0
          exact absurd ⟨(beq_iff_eq.mp f1).symm, (beq_iff_eq.mp f2).symm⟩ hsame
      rw [if_neg hsame, if_neg hsame]
      simp only [List.filter_cons]
      simp [hnot]
  · rw [if_neg h, if_neg h]

/-- A message returned by `findMessage` carries the looked-up id. -/
theorem findMessage_some_id (db : DB) (mid : Nat) (msg : MessageRow)
    (h : findMessage db mid = some msg) : msg.message_id = mid := by
  unfold findMessage at h
  rcases hl : List.filter (fun m => m.message_id == mid) db.messages with _ | ⟨a, as⟩
  · rw [hl] at h
    simp at h
  · rw [hl] at h
    simp at h
    have ha : a ∈ List.filter (fun m => m.message_id == mid) db.messages := by
      rw [hl]
      exact List.mem_cons_self a as
    have hp := (List.mem_filter.mp ha).2
    rw [h] at hp
    exact beq_iff_eq.mp hp

/-- `findMessage` only reads the message table. -/
theorem findMessage_congr (X Y : DB) (mid : Nat) (h : X.messages = Y.messages) :
    findMessage X mid = findMessage Y mid := by
  unfold findMessage
  rw [h]

/-- The denormalized `token_count` write commutes with the id filter. -/
theorem filter_setMessageTokenCount_id (msgs : List MessageRow) (mid : Nat) (v : Int) :
    (setMessageTokenCount msgs mid v).filter (fun m => m.message_id == mid) =
      (msgs.filter (fun m => m.message_id == mid)).map (updTokenCount mid v) := by
  unfold setMessageTokenCount
  rw [List.filter_map]
  congr 1
  apply List.filter_congr
  intro a _
  show ((updTokenCount mid v a).message_id == mid) = (a.message_id == mid)
  unfold updTokenCount
  by_cases h : (a.message_id == mid) = true
  · rw [if_pos h]
  · rw [if_neg h]

/-- The denormalized `token_count` write commutes with the thread filter. -/
theorem filter_setMessageTokenCount_thread (msgs : List MessageRow) (mid : Nat)
    (v : Int) (tid : Nat) :
    (setMessageTokenCount msgs mid v).filter (fun m => m.thread_id == tid) =
      (msgs.filter (fun m => m.thread_id == tid)).map (updTokenCount mid v) := by
  unfold setMessageTokenCount
  rw [List.filter_map]
  congr 1
  apply List.filter_congr
  intro a _
  show ((updTokenCount mid v a).thread_id == tid) = (a.thread_id == tid)
  unfold updTokenCount
  by_cases h : (a.message_id == mid) = true
  · rw [if_pos h]
  · rw [if_neg h]

/-- Looking the message up again after the `token_count` write returns the
updated row. -/
theorem findMessage_after_set (db : DB) (mid : Nat) (v : Int) :
    findMessage { db with messages := setMessageTokenCount db.messages mid v } mid =
      (findMessage db mid).map (updTokenCount mid v) := by
  unfold findMessage
  rw [show ({ db with messages := setMessageTokenCount db.messages mid v } : DB).messages = setMessageTokenCount db.messages mid v from rfl]
  rw [filter_setMessageTokenCount_id, List.head?_map]

/-- Shape of a committed `handle_token_metrics` transaction: the
denormalized count write followed by the input and output
delete-then-insert blocks, sharing one pricing lookup. -/
theorem handle_token_metrics_tx_eq (db : DB) (ev : TokenMetricsEvent) (msg : MessageRow)
    (h0 : ev.message_id ≠ 0) (h1 : ev.model_id ≠ 0)
    (hm : findMessage db ev.message_id = some msg) :
    handle_token_metrics_tx db ev =
      (processTokenType
        (processTokenType
          { db with messages := setMessageTokenCount db.messages ev.message_id (if msg.role == "user" then ev.token_usage.input_tokens else ev.token_usage.output_tokens) }
          ev.message_id "input" ev.token_usage.input_tokens
          (match currentPricingFor db ev.model_id with
           | some p => p.input_token_price
           | none => DEFAULT_INPUT_TOKEN_PRICE)
          (currentPricingFor db ev.model_id))
        ev.message_id "output" ev.token_usage.output_tokens
        (match currentPricingFor db ev.model_id with
         | some p => p.output_token_price
         | none => DEFAULT_OUTPUT_TOKEN_PRICE)
        (currentPricingFor db ev.model_id),
       some msg, TMResult.ok) := by
  have hg : (ev.message_id == 0 || ev.model_id == 0) = false := by
    simp [h0, h1]
  unfold handle_token_metrics_tx
  simp only [hg, Bool.false_eq_true, if_false, hm]

/-- The transaction never touches the pricing table. -/
theorem tx_token_pricing (db : DB) (ev : TokenMetricsEvent) :
    (handle_token_metrics_tx db ev).1.token_pricing = db.token_pricing := by
  unfold handle_token_metrics_tx
  by_cases hg : (ev.message_id == 0 || ev.model_id == 0) = true
  · rw [if_pos hg]
  · rw [if_neg hg]
    cases hfm : findMessage db ev.message_id with
    | none => rfl
    | some msg => simp [processTokenType_token_pricing]

/-- `tokenCounts` ignores the message table. -/
theorem tokenCounts_messages_irrel (db : DB) (msgs : List MessageRow) (mid : Nat)
    (t : String) :
    tokenCounts { db with messages := msgs } mid t = tokenCounts db mid t := rfl

/-- Token view of a committed transaction, per type: each positive count
replaces its bucket with a singleton; everything else is untouched. -/
theorem tx_tokenCounts (db : DB) (ev : TokenMetricsEvent) (msg : MessageRow)
    (h0 : ev.message_id ≠ 0) (h1 : ev.model_id ≠ 0)
    (hm : findMessage db ev.message_id = some msg) (t : String) :
    tokenCounts (handle_token_metrics_tx db ev).1 ev.message_id t =
      if t = "input" ∧ 0 < ev.token_usage.input_tokens then
        [ev.token_usage.input_tokens]
      else if t = "output" ∧ 0 < ev.token_usage.output_tokens then
        [ev.token_usage.output_tokens]
      else tokenCounts db ev.message_id t := by
  rw [handle_token_metrics_tx_eq db ev msg h0 h1 hm]
  simp only [tokenCounts_processTokenType, tokenCounts_messages_irrel]
  by_cases hti : t = "input" <;> by_cases hto : t = "output" <;>
    by_cases hit : 0 < ev.token_usage.input_tokens <;>
    by_cases hot : 0 < ev.token_usage.output_tokens <;>
    simp_all

/-- Line-item amounts of a committed transaction: the prior ledger plus
`addedAmounts`. -/
theorem tx_line_items_map (db : DB) (ev : TokenMetricsEvent) (msg : MessageRow)
    (h0 : ev.message_id ≠ 0) (h1 : ev.model_id ≠ 0)
    (hm : findMessage db ev.message_id = some msg) :
    (handle_token_metrics_tx db ev).1.line_items.map (fun li => li.amount) =
      db.line_items.map (fun li => li.amount) ++ addedAmounts db ev := by
  rw [handle_token_metrics_tx_eq db ev msg h0 h1 hm]
  rcases hpr : currentPricingFor db ev.model_id with _ | p <;>
    by_cases hit : 0 < ev.token_usage.input_tokens <;>
    by_cases hot : 0 < ev.token_usage.output_tokens <;>
    simp [processTokenType_line_items, addedAmounts, hpr, hit, hot]

/-- `addedAmounts` has one entry per line item the transaction adds. -/
theorem addedAmounts_length (db : DB) (ev : TokenMetricsEvent) :
    (addedAmounts db ev).length = itemsAdded db ev := by
  rcases hpr : currentPricingFor db ev.model_id with _ | p <;>
    by_cases hit : 0 < ev.token_usage.input_tokens <;>
    by_cases hot : 0 < ev.token_usage.output_tokens <;>
    simp [addedAmounts, itemsAdded, hpr, hit, hot]

/-- Line-item count of a committed transaction. -/
theorem tx_line_items_length (db : DB) (ev : TokenMetricsEvent) (msg : MessageRow)
    (h0 : ev.message_id ≠ 0) (h1 : ev.model_id ≠ 0)
    (hm : findMessage db ev.message_id = some msg) :
    (handle_token_metrics_tx db ev).1.line_items.length =
      db.line_items.length + itemsAdded db ev := by
  have h := congrArg List.length (tx_line_items_map db ev msg h0 h1 hm)
  simpa [addedAmounts_length] using h

/-- The message row a committed transaction leaves behind. -/
theorem tx_findMessage (db : DB) (ev : TokenMetricsEvent) (msg : MessageRow)
    (h0 : ev.message_id ≠ 0) (h1 : ev.model_id ≠ 0)
    (hm : findMessage db ev.message_id = some msg) :
    findMessage (handle_token_metrics_tx db ev).1 ev.message_id =
      some (updTokenCount ev.message_id
        (if msg.role == "user" then ev.token_usage.input_tokens
         else ev.token_usage.output_tokens) msg) := by
  rw [handle_token_metrics_tx_eq db ev msg h0 h1 hm]
  rw [findMessage_congr _
    { db with messages := setMessageTokenCount db.messages ev.message_id (if msg.role == "user" then ev.token_usage.input_tokens else ev.token_usage.output_tokens) }
    ev.message_id (by simp [processTokenType_messages])]
  rw [findMessage_after_set, hm]
  rfl

/-- Claim C1 (amended): reprocessing the same `TokenMetrics` event leaves
the same `MessageToken` content per `(message_id, token_type)` — at most
one record per type, replaced by delete-then-insert — but each run appends
its line items again, so the second run grows the `UserInvoiceLineItem`
table by exactly the number of items the first run added. -/
theorem c1_token_records_idempotent_line_items_duplicate
    (db : DB) (cache cache' : Cache) (ev : TokenMetricsEvent) (msg : MessageRow)
    (h0 : ev.message_id ≠ 0) (h1 : ev.model_id ≠ 0)
    (hm : findMessage db ev.message_id = some msg) :
    (∀ t, tokenCounts (handle_token_metrics
            (handle_token_metrics db cache ev).1 cache' ev).1 ev.message_id t =
        tokenCounts (handle_token_metrics db cache ev).1 ev.message_id t) ∧
    (handle_token_metrics (handle_token_metrics db cache ev).1 cache' ev).1.line_items.length =
      (handle_token_metrics db cache ev).1.line_items.length +
        ((handle_token_metrics db cache ev).1.line_items.length - db.line_items.length) := by
  have hm2 : findMessage (handle_token_metrics db cache ev).1 ev.message_id =
      some (updTokenCount ev.message_id
        (if msg.role == "user" then ev.token_usage.input_tokens
         else ev.token_usage.output_tokens) msg) := by
    rw [handle_token_metrics_fst]
    exact tx_findMessage db ev msg h0 h1 hm
  have hpricing : (handle_token_metrics db cache ev).1.token_pricing = db.token_pricing := by
    rw [handle_token_metrics_fst]
    exact tx_token_pricing db ev
  have hrole : (updTokenCount ev.message_id
      (if msg.role == "user" then ev.token_usage.input_tokens
       else ev.token_usage.output_tokens) msg).role = msg.role := by
    unfold updTokenCount
    by_cases h : (msg.message_id == ev.message_id) = true
    · rw [if_pos h]
    · rw [if_neg h]
  constructor
  · intro t
    rw [handle_token_metrics_fst (handle_token_metrics db cache ev).1]
    rw [tx_tokenCounts _ ev _ h0 h1 hm2 t]
    rw [handle_token_metrics_fst db, tx_tokenCounts db ev msg h0 h1 hm t]
    by_cases hti : t = "input" ∧ 0 < ev.token_usage.input_tokens <;>
      by_cases hto : t = "output" ∧ 0 < ev.token_usage.output_tokens <;>
      simp [hti, hto]
  · rw [handle_token_metrics_fst (handle_token_metrics db cache ev).1]
    rw [tx_line_items_length _ ev _ h0 h1 hm2]
    rw [handle_token_metrics_fst db, tx_line_items_length db ev msg h0 h1 hm]
    have hsame : itemsAdded (handle_token_metrics_tx db ev).1 ev = itemsAdded db ev := by
      unfold itemsAdded currentPricingFor
      rw [tx_token_pricing db ev]
    rw [hsame]
    omega

/-- Claim C1 witness: the general theorem at the scenario fixture — one
reprocessing of `evInput5` keeps the single (input, 5) token record and
adds one more line item on top of the first run's single item. -/
theorem c1_witness :
    tokenCounts (handle_token_metrics
        (handle_token_metrics sampleDB Cache.empty evInput5).1 Cache.empty evInput5).1
        1 "input" =
      tokenCounts (handle_token_metrics sampleDB Cache.empty evInput5).1 1 "input" ∧
    (handle_token_metrics (handle_token_metrics sampleDB Cache.empty evInput5).1
        Cache.empty evInput5).1.line_items.length =
      (handle_token_metrics sampleDB Cache.empty evInput5).1.line_items.length +
        ((handle_token_metrics sampleDB Cache.empty evInput5).1.line_items.length -
          sampleDB.line_items.length) :=
  ⟨(c1_token_records_idempotent_line_items_duplicate sampleDB Cache.empty Cache.empty
      evInput5 msgHello (by decide) (by decide) (by decide)).1 "input",
   (c1_token_records_idempotent_line_items_duplicate sampleDB Cache.empty Cache.empty
      evInput5 msgHello (by decide) (by decide) (by decide)).2⟩

/-- Claim C2 (amended): a committed `handle_token_metrics` run writes one
fresh token record per positive count, and appends exactly the
`addedAmounts` line items: `round(count * unit_price, 6)` per positive
count when a current pricing row exists for the event's model, and none
otherwise. -/
theorem c2_ledger_writes (db : DB) (cache : Cache) (ev : TokenMetricsEvent)
    (msg : MessageRow) (h0 : ev.message_id ≠ 0) (h1 : ev.model_id ≠ 0)
    (hm : findMessage db ev.message_id = some msg) :
    (0 < ev.token_usage.input_tokens →
      tokenCounts (handle_token_metrics db cache ev).1 ev.message_id "input" =
        [ev.token_usage.input_tokens]) ∧
    (0 < ev.token_usage.output_tokens →
      tokenCounts (handle_token_metrics db cache ev).1 ev.message_id "output" =
        [ev.token_usage.output_tokens]) ∧
    (handle_token_metrics db cache ev).1.line_items.map (fun li => li.amount) =
      db.line_items.map (fun li => li.amount) ++ addedAmounts db ev := by
  refine ⟨?_, ?_, ?_⟩
  · intro hit
    rw [handle_token_metrics_fst, tx_tokenCounts db ev msg h0 h1 hm]
    simp [hit]
  · intro hot
    rw [handle_token_metrics_fst, tx_tokenCounts db ev msg h0 h1 hm]
    simp [hot]
  · rw [handle_token_metrics_fst]
    exact tx_line_items_map db ev msg h0 h1 hm

/-- Claim C2 witness: the general theorem at the scenario fixture — the
5-input-token event priced by the haiku row leaves the `[5]` bucket and
appends exactly one amount, `round(5 * 0.00000025, 6)`. -/
theorem c2_witness :
    tokenCounts (handle_token_metrics sampleDB Cache.empty evInput5).1 1 "input" = [5] ∧
    (handle_token_metrics sampleDB Cache.empty evInput5).1.line_items.map
        (fun li => li.amount) =
      sampleDB.line_items.map (fun li => li.amount) ++ addedAmounts sampleDB evInput5 :=
  ⟨(c2_ledger_writes sampleDB Cache.empty evInput5 msgHello
      (by decide) (by decide) (by decide)).1 (by decide),
   (c2_ledger_writes sampleDB Cache.empty evInput5 msgHello
      (by decide) (by decide) (by decide)).2.2⟩

/-- Claim C7: a `TokenMetrics` event whose `message_id` matches no message
is logged as not found and dropped — the ledger, the message table and the
cache are all returned unchanged, and the handler returns normally (so
nothing propagates to the consumer loop, whose per-event `try/except`
would contain it anyway). -/
theorem c7_notfound_drops_event (db : DB) (cache : Cache) (ev : TokenMetricsEvent)
    (h0 : ev.message_id ≠ 0) (h1 : ev.model_id ≠ 0)
    (hm : findMessage db ev.message_id = none) :
    handle_token_metrics db cache ev = (db, cache, TMResult.notFound) := by
  have hg : (ev.message_id == 0 || ev.model_id == 0) = false := by
    simp [h0, h1]
  unfold handle_token_metrics handle_token_metrics_tx
  simp only [hg, Bool.false_eq_true, if_false, hm]

/-- Claim C7 witness: the ghost event (message id 99, absent from
`sampleDB`) is dropped with the state unchanged. -/
theorem c7_witness :
    handle_token_metrics sampleDB Cache.empty evGhost =
      (sampleDB, Cache.empty, TMResult.notFound) :=
  c7_notfound_drops_event sampleDB Cache.empty evGhost
    (by decide) (by decide) (by decide)

/-- Claim C8 (amended): the eager recompute run by the billing processor
(`update_thread_metrics_cache`) aggregates token records by type and,
when both totals are zero, falls back to the role-grouped sums of the
denormalized `Message.token_count` field.  (The API's own cache-miss
recompute has no such fallback; see the counterexample.) -/
theorem c8_processor_fallback (db : DB) (cache : Cache) (tid : Nat) (last : Nat)
    (hin : tokenSumByType db tid "input" = 0)
    (hout : tokenSumByType db tid "output" = 0)
    (hla : lastActivity db tid = some last) :
    (update_thread_metrics_cache db cache tid).1.map
        (fun m => (m.total_input_tokens, m.total_output_tokens)) =
      some (roleTokenCountSum db tid "user", roleTokenCountSum db tid "assistant") := by
  unfold update_thread_metrics_cache
  simp [hin, hout, hla]

/-- Claim C8 witness: on the denormalized-only fixture the processor's
recompute reports the fallback sums 5 and 12. -/
theorem c8_witness :
    (update_thread_metrics_cache denormOnlyDB Cache.empty 1).1.map
        (fun m => (m.total_input_tokens, m.total_output_tokens)) =
      some (roleTokenCountSum denormOnlyDB 1 "user",
            roleTokenCountSum denormOnlyDB 1 "assistant") :=
  c8_processor_fallback denormOnlyDB Cache.empty 1 101
    (by decide) (by decide) (by decide)

/-- `set_current_price` leaves exactly one current row for the model. -/
theorem countCurrent_set_same (db : DB) (m : Nat) (ip op : ℚ) (now : Nat) :
    countCurrent (set_current_price db m ip op now) m = 1 := by
  unfold countCurrent set_current_price
  rw [List.filter_append, List.length_append]
  have h1 : ∀ l : List PricingRow,
      (List.filter (fun r => r.model_id == m && r.is_current)
        (l.map (closeRow m now))).length = 0 := by
    intro l
    induction l with
    | nil => rfl
    | cons a l ih =>
      simp only [List.map_cons, List.filter_cons]
      by_cases hc : (a.model_id == m && a.is_current) = true
      · have hca : closeRow m now a = { a with is_current := false, effective_to := some now } := by
          unfold closeRow
          rw [if_pos hc]
        rw [hca]
        simpa using ih
      · have hca : closeRow m now a = a := by
          unfold closeRow
          rw [if_neg hc]
        rw [hca]
        rw [Bool.not_eq_true] at hc
        simp only [hc, Bool.false_eq_true, if_false]
        exact ih
  rw [h1 db.token_pricing]
  simp

/-- `set_current_price` does not touch other models' current rows. -/
theorem countCurrent_set_other (db : DB) (m m' : Nat) (ip op : ℚ) (now : Nat)
    (h : m' ≠ m) :
    countCurrent (set_current_price db m ip op now) m' = countCurrent db m' := by
  unfold countCurrent set_current_price
  rw [List.filter_append, List.length_append]
  have hnew : (List.filter (fun r => r.model_id == m' && r.is_current)
      ([{ pricing_id := (db.token_pricing.map (fun r => r.pricing_id)).foldl Nat.max 0 + 1,
          model_id := m, input_token_price := ip, output_token_price := op,
          effective_from := now, effective_to := none,
          is_current := true }] : List PricingRow)).length = 0 := by
    have : (m == m') = false := by
      rcases hq : (m == m') with _ | _
      · rfl
      · exact absurd (beq_iff_eq.mp hq).symm h
    simp [this]
  rw [hnew]
  have h1 : ∀ l : List PricingRow,
      (List.filter (fun r => r.model_id == m' && r.is_current)
        (l.map (closeRow m now))).length =
      (List.filter (fun r => r.model_id == m' && r.is_current) l).length := by
    intro l
    induction l with
    | nil => rfl
    | cons a l ih =>
      simp only [List.map_cons, List.filter_cons]
      by_cases hc : (a.model_id == m && a.is_current) = true
      · have hca : closeRow m now a = { a with is_current := false, effective_to := some now } := by
          unfold closeRow
          rw [if_pos hc]
        rw [hca]
        obtain ⟨e1, e2⟩ := (Bool.and_eq_true _ _).mp hc
        have hm' : (a.model_id == m') = false := by
          rcases hq : (a.model_id == m') with _ | _
          · rfl
          · exact absurd ((beq_iff_eq.mp hq).symm.trans (beq_iff_eq.mp e1)) h
        simp [hm', ih]
      · have hca : closeRow m now a = a := by
          unfold closeRow
          rw [if_neg hc]
        rw [hca]
        by_cases hp : (a.model_id == m' && a.is_current) = true
        · simp [hp, ih]
        · rw [Bool.not_eq_true] at hp
          simp [hp, ih]
  rw [h1 db.token_pricing]
  omega

/-- `set_current_price` closes every previously-current row of the model
at the given instant and closes nothing else. -/
theorem closedAtCount_set (db : DB) (m : Nat) (ip op : ℚ) (now : Nat) :
    closedAtCount (set_current_price db m ip op now) m now =
      countCurrent db m + closedAtCount db m now := by
  unfold closedAtCount countCurrent set_current_price
  rw [List.filter_append, List.length_append]
  have hnew : (List.filter
      (fun r => r.model_id == m && !r.is_current && r.effective_to == some now)
      ([{ pricing_id := (db.token_pricing.map (fun r => r.pricing_id)).foldl Nat.max 0 + 1,
          model_id := m, input_token_price := ip, output_token_price := op,
          effective_from := now, effective_to := none,
          is_current := true }] : List PricingRow)).length = 0 := by
    simp
  rw [hnew]
  have h1 : ∀ l : List PricingRow,
      (List.filter (fun r => r.model_id == m && !r.is_current && r.effective_to == some now)
        (l.map (closeRow m now))).length =
      (List.filter (fun r => r.model_id == m && r.is_current) l).length +
      (List.filter (fun r => r.model_id == m && !r.is_current && r.effective_to == some now) l).length := by
    intro l
    induction l with
    | nil => rfl
    | cons a l ih =>
      simp only [List.map_cons, List.filter_cons]
      by_cases hc : (a.model_id == m && a.is_current) = true
      · have hca : closeRow m now a = { a with is_current := false, effective_to := some now } := by
          unfold closeRow
          rw [if_pos hc]
        rw [hca]
        obtain ⟨e1, e2⟩ := (Bool.and_eq_true _ _).mp hc
        simp [hc, e1, e2, ih]
        omega
      · have hca : closeRow m now a = a := by
          unfold closeRow
          rw [if_neg hc]
        rw [hca]
        rw [Bool.not_eq_true] at hc
        by_cases hp : (a.model_id == m && !a.is_current && a.effective_to == some now) = true
        · simp [hp, hc, ih]
          omega
        · rw [Bool.not_eq_true] at hp
          simp [hp, hc, ih]
  rw [h1 db.token_pricing]
  omega

/-- Claim C9: in every reachable pricing state at most one `TokenPrice`
row per model is current; one `set_current_price` transaction leaves
exactly one current row for the model, leaves other models untouched, and
closes exactly the previously-current rows (at most one of them, by the
invariant) with `effective_to = now`. -/
theorem c9_scd_current_price_invariant :
    (∀ db, PricingReachable db → ∀ m, countCurrent db m ≤ 1) ∧
    (∀ db m ip op now, PricingReachable db →
      countCurrent (set_current_price db m ip op now) m = 1 ∧
      (∀ m', m' ≠ m →
        countCurrent (set_current_price db m ip op now) m' = countCurrent db m') ∧
      closedAtCount (set_current_price db m ip op now) m now =
        countCurrent db m + closedAtCount db m now) := by
  have inv : ∀ db, PricingReachable db → ∀ m, countCurrent db m ≤ 1 := by
    intro db h
    induction h with
    | init db h0 =>
      intro m
      unfold countCurrent
      rw [h0]
      simp
    | step db m0 ip op now _ ih =>
      intro m
      by_cases hm : m = m0
      · subst hm
        rw [countCurrent_set_same]
      · rw [countCurrent_set_other db m0 m ip op now hm]
        exact ih m
  refine ⟨inv, ?_⟩
  intro db m ip op now _
  exact ⟨countCurrent_set_same db m ip op now,
    fun m' hm' => countCurrent_set_other db m m' ip op now hm',
    closedAtCount_set db m ip op now⟩

/-- Claim C9 witness: from the empty reachable state, setting the haiku
price yields exactly one current row for model 1, and the invariant holds
at the base state. -/
theorem c9_witness :
    countCurrent (set_current_price emptyDB 1 (25/100000000) (75/100000000) 50) 1 = 1 ∧
    countCurrent emptyDB 1 ≤ 1 :=
  ⟨(c9_scd_current_price_invariant.2 emptyDB 1 (25/100000000) (75/100000000) 50
      (PricingReachable.init emptyDB rfl)).1,
   c9_scd_current_price_invariant.1 emptyDB (PricingReachable.init emptyDB rfl) 1⟩

theorem processTokenType_next_token_id (db : DB) (mid : Nat) (t : String) (cnt : Int)
    (price : ℚ) (pr : Option PricingRow) :
    (processTokenType db mid t cnt price pr).next_token_id =
      if 0 < cnt then db.next_token_id + 1 else db.next_token_id := by
  by_cases h : 0 < cnt
  · cases pr <;> simp [processTokenType, h]
  · simp [processTokenType, h]

theorem deleteTokenRecords_append (l1 l2 : List TokenRow) (mid : Nat) (t : String) :
    deleteTokenRecords (l1 ++ l2) mid t =
      deleteTokenRecords l1 mid t ++ deleteTokenRecords l2 mid t := by
  unfold deleteTokenRecords
  rw [List.filter_append]

/-- Deleting one token type of a message commutes with filtering for that
message: only records of the deleted type disappear. -/
theorem filter_mid_deleteTokenRecords (l : List TokenRow) (mid : Nat) (t : String) :
    (deleteTokenRecords l mid t).filter (fun r => r.message_id == mid) =
      (l.filter (fun r => r.message_id == mid)).filter
        (fun r => !(r.token_type == t)) := by
  unfold deleteTokenRecords
  rw [List.filter_filter, List.filter_filter]
  apply List.filter_congr
  intro a _
  by_cases h : (a.message_id == mid) = true
  · simp [h]
  · simp [h]

/-- Line-item amounts appended by the reconciliation inner loop: one
`amountFor` entry per token record. -/
theorem reconAddItem_foldl_amounts (msg : MessageRow) (pr : PricingRow)
    (toks : List TokenRow) (a : DB) :
    ((toks.foldl (reconAddItem msg pr) a).line_items.map (fun li => li.amount)) =
      a.line_items.map (fun li => li.amount) ++ toks.map (amountFor pr) := by
  induction toks generalizing a with
  | nil => simp
  | cons t ts ih =>
    rw [List.foldl_cons, ih]
    simp [reconAddItem]

/-- The token records a committed transaction leaves for the event's
message, when the message had none before: exactly the freshly inserted
ones, input first. -/
theorem tx_filtered_tokens (db : DB) (ev : TokenMetricsEvent) (msg : MessageRow)
    (h0 : ev.message_id ≠ 0) (h1 : ev.model_id ≠ 0)
    (hm : findMessage db ev.message_id = some msg)
    (hnotok : db.message_tokens.filter (fun r => r.message_id == ev.message_id) = []) :
    (handle_token_metrics_tx db ev).1.message_tokens.filter
        (fun r => r.message_id == ev.message_id) =
      (if 0 < ev.token_usage.input_tokens then
        [{ token_id := db.next_token_id, message_id := ev.message_id,
           token_type := "input", token_count := ev.token_usage.input_tokens }] else []) ++
      (if 0 < ev.token_usage.output_tokens then
        [{ token_id := if 0 < ev.token_usage.input_tokens then db.next_token_id + 1
             else db.next_token_id,
           message_id := ev.message_id, token_type := "output",
           token_count := ev.token_usage.output_tokens }] else []) := by
  rw [handle_token_metrics_tx_eq db ev msg h0 h1 hm]
  by_cases hit : 0 < ev.token_usage.input_tokens <;>
    by_cases hot : 0 < ev.token_usage.output_tokens <;>
    simp [processTokenType_message_tokens, processTokenType_next_token_id, hit, hot,
      deleteTokenRecords_append, List.filter_append, filter_mid_deleteTokenRecords,
      hnotok]

/-- Claim C6 (amended): for a single-message thread with no prior token
records, when the event's model is the message's model with a current
pricing row and each `count * unit_price` is already exact at six decimal
digits, the reconciliation pass adds line items totalling exactly what the
incremental `handle_token_metrics` line items added; in general the two
differ by per-item rounding (see the counterexample). -/
theorem c6_totals_converge_when_exact (db : DB) (cache : Cache)
    (ev : TokenMetricsEvent) (msg : MessageRow) (pr : PricingRow) (iid : Nat)
    (h0 : ev.message_id ≠ 0) (h1 : ev.model_id ≠ 0)
    (hm : findMessage db ev.message_id = some msg)
    (hpr : currentPricingFor db ev.model_id = some pr)
    (hmodel : msg.model_id = ev.model_id)
    (honly : threadMessages db msg.thread_id = [msg])
    (hnotok : db.message_tokens.filter (fun r => r.message_id == msg.message_id) = [])
    (hexI : round6 ((ev.token_usage.input_tokens : ℚ) * pr.input_token_price) =
      (ev.token_usage.input_tokens : ℚ) * pr.input_token_price)
    (hexO : round6 ((ev.token_usage.output_tokens : ℚ) * pr.output_token_price) =
      (ev.token_usage.output_tokens : ℚ) * pr.output_token_price) :
    amountsTotal (generate_invoice_line_items
        (handle_token_metrics db cache ev).1 iid msg.thread_id) -
      amountsTotal (handle_token_metrics db cache ev).1 =
    amountsTotal (handle_token_metrics db cache ev).1 - amountsTotal db := by
  have hid : msg.message_id = ev.message_id := findMessage_some_id db ev.message_id msg hm
  rw [hid] at hnotok
  rw [handle_token_metrics_fst]
  have hA : amountsTotal (handle_token_metrics_tx db ev).1 =
      amountsTotal db + (addedAmounts db ev).sum := by
    unfold amountsTotal
    rw [tx_line_items_map db ev msg h0 h1 hm, List.sum_append]
  have hthread : threadMessages (handle_token_metrics_tx db ev).1 msg.thread_id =
      [{ msg with token_count := some (if msg.role == "user" then ev.token_usage.input_tokens else ev.token_usage.output_tokens) }] := by
    unfold threadMessages
    rw [show (handle_token_metrics_tx db ev).1.messages = setMessageTokenCount db.messages ev.message_id (if msg.role == "user" then ev.token_usage.input_tokens else ev.token_usage.output_tokens) from by rw [handle_token_metrics_tx_eq db ev msg h0 h1 hm]; simp [processTokenType_messages]]
    rw [filter_setMessageTokenCount_thread]
    rw [show db.messages.filter (fun m => m.thread_id == msg.thread_id) = threadMessages db msg.thread_id from rfl, honly]
    rw [List.map_cons, List.map_nil]
    rw [show updTokenCount ev.message_id (if msg.role == "user" then ev.token_usage.input_tokens else ev.token_usage.output_tokens) msg = { msg with token_count := some (if msg.role == "user" then ev.token_usage.input_tokens else ev.token_usage.output_tokens) } from by unfold updTokenCount; rw [if_pos (by rw [hid]; exact beq_self_eq_true _)]]
  have hpricing2 : currentPricingFor (handle_token_metrics_tx db ev).1
      ({ msg with token_count := some (if msg.role == "user" then ev.token_usage.input_tokens else ev.token_usage.output_tokens) } : MessageRow).model_id = some pr := by
    show currentPricingFor (handle_token_metrics_tx db ev).1 msg.model_id = some pr
    unfold currentPricingFor
    rw [tx_token_pricing, hmodel]
    exact hpr
  have hrecon : generate_invoice_line_items (handle_token_metrics_tx db ev).1 iid msg.thread_id =
      ((handle_token_metrics_tx db ev).1.message_tokens.filter
        (fun r => r.message_id == msg.message_id)).foldl
        (reconAddItem { msg with token_count := some (if msg.role == "user" then ev.token_usage.input_tokens else ev.token_usage.output_tokens) } pr)
        (handle_token_metrics_tx db ev).1 := by
    unfold generate_invoice_line_items
    rw [hthread, List.foldl_cons, List.foldl_nil]
    unfold reconMessage
    simp only [hpricing2]
  have hB : amountsTotal (generate_invoice_line_items
      (handle_token_metrics_tx db ev).1 iid msg.thread_id) =
      amountsTotal (handle_token_metrics_tx db ev).1 +
      (((handle_token_metrics_tx db ev).1.message_tokens.filter
        (fun r => r.message_id == msg.message_id)).map (amountFor pr)).sum := by
    unfold amountsTotal
    rw [hrecon, reconAddItem_foldl_amounts, List.sum_append]
  have hS : (((handle_token_metrics_tx db ev).1.message_tokens.filter
      (fun r => r.message_id == msg.message_id)).map (amountFor pr)).sum =
      (addedAmounts db ev).sum := by
    rw [hid, tx_filtered_tokens db ev msg h0 h1 hm hnotok]
    unfold addedAmounts
    rw [hpr]
    by_cases hit : 0 < ev.token_usage.input_tokens <;>
      by_cases hot : 0 < ev.token_usage.output_tokens <;>
      simp [amountFor, hit, hot, hexI, hexO]
  rw [hB, hS, hA]
  ring

/-- Claim C6 witness: on the one-message thread priced by the exact
`prExact` row, the reconciliation total for thread 1 equals the
incremental total added for the 5-input-token event. -/
theorem c6_witness :
    amountsTotal (generate_invoice_line_items
        (handle_token_metrics oneMsgDB Cache.empty evInput5).1 1 1) -
      amountsTotal (handle_token_metrics oneMsgDB Cache.empty evInput5).1 =
    amountsTotal (handle_token_metrics oneMsgDB Cache.empty evInput5).1 -
      amountsTotal oneMsgDB :=
  c6_totals_converge_when_exact oneMsgDB Cache.empty evInput5 msgHello prExact 1
    (by decide) (by decide) (by decide) (by decide) (by decide) (by decide)
    (by decide) (by decide) (by decide)

end ChatBilling
